import Mathlib

/-!
Shallow embedding of the `wiz` CLI core (src/wiz.ts): the Wiz-bulb pilot
data model, command generation (`parseArgs` / `MODES`), the UDP transport
retry loop (`sendWithRetry`), cached-address resolution (`requireBulbIp`),
the broadcast-vs-subnet-scan discovery race (`discoverByMac`), the subnet
scanner (`discoverBySubnetScan`), and the animated preset command flow
(`cmdAnimatedPreset`).  Network and I/O effects are modelled by passing the
outcomes of the individual exchanges in explicitly (oracles / environment
records); all numeric fields are `Nat` since the program only ever builds
them from validated decimal or hex digits.
-/

namespace Wiz

/-- Configuration constants, src/wiz.ts lines 90-96. -/
def WIZ_PORT : Nat := 38899

/-- Broadcast discovery reply-collection window (ms). -/
def DISCOVERY_TIMEOUT_MS : Nat := 3000

/-- Per-exchange command timeout (ms). -/
def COMMAND_TIMEOUT_MS : Nat := 2000

/-- Per-probe timeout during subnet scanning (ms). -/
def SUBNET_SCAN_TIMEOUT_MS : Nat := 200

/-- Width of one concurrent probe batch during subnet scanning. -/
def SUBNET_BATCH_SIZE : Nat := 50

/-- Total attempt bound of `sendWithRetry`. -/
def MAX_RETRIES : Nat := 3

/-- Flat delay between retry attempts (ms). -/
def RETRY_DELAY_MS : Nat := 500

/-- Grace delay before the subnet scan is started inside `discoverByMac`
(the literal 500 in the `setTimeout` at src/wiz.ts line 879-883). -/
def SCAN_GRACE_MS : Nat := 500

/-- `WizPilotParams` (src/wiz.ts lines 30-39): the parameter set of a
`setPilot` command.  Absent JSON fields are `none`. -/
structure WizPilotParams where
  state : Option Bool := none
  dimming : Option Nat := none
  temp : Option Nat := none
  r : Option Nat := none
  g : Option Nat := none
  b : Option Nat := none
  w : Option Nat := none
  c : Option Nat := none
  deriving DecidableEq, Repr

/-- `WizPilotState` (src/wiz.ts lines 41-49): a device state snapshot as
reported by `getPilot`. -/
structure WizPilotState where
  state : Option Bool := none
  dimming : Option Nat := none
  temp : Option Nat := none
  r : Option Nat := none
  g : Option Nat := none
  b : Option Nat := none
  mac : Option String := none
  deriving DecidableEq, Repr

/-- Payload of the `result` field of a response
(src/wiz.ts lines 51-53): a pilot state extended with the `setPilot`
success flag. -/
structure WizResult extends WizPilotState where
  success : Option Bool := none
  deriving DecidableEq, Repr

/-- `WizResponse` (src/wiz.ts lines 51-53): the response envelope. -/
structure WizResponse where
  result : Option WizResult := none
  deriving DecidableEq, Repr

/-- JavaScript comparison `o <= k` where `o` may be `undefined`
(`undefined <= k` is false). -/
def optLE (o : Option Nat) (k : Nat) : Bool :=
  match o with
  | some d => d ≤ k
  | none => false

/-- JavaScript comparison `o >= k` where `o` may be `undefined`. -/
def optGE (o : Option Nat) (k : Nat) : Bool :=
  match o with
  | some d => k ≤ d
  | none => false

/-- A mode entry of the `MODES` table (src/wiz.ts lines 57-63):
parameter set plus per-mode verification predicate.  The presentation
fields (`title`, `desc`, `tagline`) are carried but irrelevant to the
claims. -/
structure Mode where
  title : String
  params : WizPilotParams
  desc : String
  verify : WizPilotState → Bool
  tagline : String

/-- `MODES.movie` (src/wiz.ts lines 99-105). -/
def movieMode : Mode where
  title := "m o v i e t i m e"
  params := { state := some true, dimming := some 1, temp := some 2200 }
  desc := "1% brightness, 2200K warm white"
  verify := fun s => s.state == some true && optLE s.dimming 2 && s.temp == some 2200
  tagline := "enjoy the movie"

/-- `MODES.chill` (src/wiz.ts lines 106-112). -/
def chillMode : Mode where
  title := "c h i l l t i m e"
  params := { state := some true, dimming := some 40, temp := some 2700 }
  desc := "40% brightness, 2700K warm white"
  verify := fun s =>
    s.state == some true && optGE s.dimming 38 && optLE s.dimming 42 && s.temp == some 2700
  tagline := "time to unwind"

/-- `MODES.day` (src/wiz.ts lines 113-119). -/
def dayMode : Mode where
  title := "d a y t i m e"
  params := { state := some true, dimming := some 100, temp := some 5000 }
  desc := "100% brightness, 5000K daylight"
  verify := fun s => s.state == some true && optGE s.dimming 98 && s.temp == some 5000
  tagline := "let there be light"

/-- Value of one hex digit character, 0 for anything else
(the validated inputs only contain hex digits). -/
def hexDigitVal (ch : Char) : Nat :=
  if 48 ≤ ch.toNat ∧ ch.toNat ≤ 57 then ch.toNat - 48
  else if 97 ≤ ch.toNat ∧ ch.toNat ≤ 102 then ch.toNat - 87
  else if 65 ≤ ch.toNat ∧ ch.toNat ≤ 70 then ch.toNat - 55
  else 0

/-- `parseInt(s.slice(i, i+2), 16)` for a hex color string. -/
def hexByte (s : String) (i : Nat) : Nat :=
  match s.toList.drop i with
  | c1 :: c2 :: _ => 16 * hexDigitVal c1 + hexDigitVal c2
  | _ => 0

/-- Whether a character is a hex digit (the character class of the
validation regex at src/wiz.ts line 155). -/
def isHexChar (ch : Char) : Bool :=
  (48 ≤ ch.toNat && ch.toNat ≤ 57) || (97 ≤ ch.toNat && ch.toNat ≤ 102) ||
    (65 ≤ ch.toNat && ch.toNat ≤ 70)

/-- Validation of a normalized hex color: exactly six hex digits
(src/wiz.ts line 155). -/
def isHex6 (s : String) : Bool :=
  s.length == 6 && s.toList.all isHexChar

/-- The `custom` mode built by `parseArgs` when no preset is named but a
hex color or a brightness is given (src/wiz.ts lines 166-189).
`hexColor` is the already validated six-digit color, `brightness` the
already validated 1-100 value; `dim` defaults to 100.  With a color the
params carry `r`, `g`, `b` from the hex bytes and both auxiliary white
channels `w` and `c` zeroed; without one only `state` and `dimming` are
set.  The verify predicate only checks power state.  Presentation strings
are abridged. -/
def customMode (hexColor : Option String) (brightness : Option Nat) : Mode :=
  let dim := brightness.getD 100
  match hexColor with
  | some h =>
      { title := "custom color"
        params := { state := some true, dimming := some dim,
                    r := some (hexByte h 0), g := some (hexByte h 2), b := some (hexByte h 4),
                    w := some 0, c := some 0 }
        desc := "custom color"
        verify := fun s => s.state == some true
        tagline := "looking good" }
  | none =>
      { title := "custom brightness"
        params := { state := some true, dimming := some dim }
        desc := "custom brightness"
        verify := fun s => s.state == some true
        tagline := "looking good" }

/-- The preset brightness override of `parseArgs`
(src/wiz.ts lines 191-197): the mode is kept, only `params.dimming` is
replaced (and the presentation string updated); in particular the
`verify` predicate is untouched. -/
def overrideBrightness (m : Mode) (bright : Nat) : Mode :=
  { m with params := { m.params with dimming := some bright } }

/-- The set of `setPilot` parameter sets the program can generate: the
three presets (src/wiz.ts lines 98-120), a preset with a validated
brightness override (lines 191-197), the custom mode from validated
inputs (lines 152-189), and the bare power commands of `cmdOn` /
`cmdOff` (lines 1162 and 1177). -/
inductive GeneratedCommand : WizPilotParams → Prop where
  | movie : GeneratedCommand movieMode.params
  | chill : GeneratedCommand chillMode.params
  | day : GeneratedCommand dayMode.params
  | movieOverride (bright : Nat) (hb : 1 ≤ bright ∧ bright ≤ 100) :
      GeneratedCommand (overrideBrightness movieMode bright).params
  | chillOverride (bright : Nat) (hb : 1 ≤ bright ∧ bright ≤ 100) :
      GeneratedCommand (overrideBrightness chillMode bright).params
  | dayOverride (bright : Nat) (hb : 1 ≤ bright ∧ bright ≤ 100) :
      GeneratedCommand (overrideBrightness dayMode bright).params
  | custom (hex : Option String) (bright : Option Nat)
      (hhex : ∀ s, hex = some s → isHex6 s = true)
      (hb : ∀ n, bright = some n → 1 ≤ n ∧ n ≤ 100)
      (hsome : hex.isSome = true ∨ bright.isSome = true) :
      GeneratedCommand (customMode hex bright).params
  | powerOn : GeneratedCommand { state := some true }
  | powerOff : GeneratedCommand { state := some false }

/-- Outcome of one transport exchange (`send`, src/wiz.ts lines 780-796):
either a parsed response or an error (timeout, malformed response, or
socket error, identified by message). -/
inductive SendOutcome where
  | ok (resp : WizResponse)
  | err (e : String)
  deriving DecidableEq, Repr

/-- Observable trace of a `sendWithRetry` call: the final result (`.error`
carries the surfaced error, `none` standing for the undefined `lastErr`
thrown when zero attempts run), the number of exchange attempts performed,
and the number of inter-attempt delays slept. -/
structure RetryTrace where
  result : Except (Option String) WizResponse
  attempts : Nat
  delays : Nat
  deriving Repr

/-- Loop body of `sendWithRetry` (src/wiz.ts lines 887-894): attempt `i`
of `retries`; a success returns immediately, a failure records the error
and sleeps `RETRY_DELAY_MS` unless this was the last attempt; after the
loop the last error is thrown.  `oracle i` is the outcome of the `i`-th
exchange. -/
def sendWithRetryGo (oracle : Nat → SendOutcome) (retries i : Nat)
    (lastErr : Option String) : RetryTrace :=
  if _h : i < retries then
    match oracle i with
    | .ok resp => ⟨.ok resp, 1, 0⟩
    | .err e =>
        let t := sendWithRetryGo oracle retries (i + 1) (some e)
        if i < retries - 1 then ⟨t.result, t.attempts + 1, t.delays + 1⟩
        else ⟨t.result, t.attempts + 1, t.delays⟩
  else ⟨.error lastErr, 0, 0⟩
  termination_by retries - i
  decreasing_by omega

/-- `sendWithRetry` (src/wiz.ts lines 887-894). -/
def sendWithRetry (oracle : Nat → SendOutcome) (retries : Nat := MAX_RETRIES) :
    RetryTrace :=
  sendWithRetryGo oracle retries 0 none

/-- Closed form of `sendWithRetry` at the default bound of three attempts. -/
theorem sendWithRetry3_eq (oracle : Nat → SendOutcome) :
    sendWithRetry oracle 3 =
      (match oracle 0 with
       | .ok r => ⟨.ok r, 1, 0⟩
       | .err _ =>
         match oracle 1 with
         | .ok r => ⟨.ok r, 2, 1⟩
         | .err _ =>
           match oracle 2 with
           | .ok r => ⟨.ok r, 3, 2⟩
           | .err e => ⟨.error (some e), 3, 2⟩ : RetryTrace) := by
  have e3 : ∀ lastErr, sendWithRetryGo oracle 3 3 lastErr = ⟨.error lastErr, 0, 0⟩ := by
    intro lastErr; rw [sendWithRetryGo]; simp
  have e2 : ∀ lastErr, sendWithRetryGo oracle 3 2 lastErr =
      (match oracle 2 with
       | .ok r => ⟨.ok r, 1, 0⟩
       | .err e => ⟨.error (some e), 1, 0⟩ : RetryTrace) := by
    intro lastErr; rw [sendWithRetryGo]
    rcases h : oracle 2 with r | e <;> simp [h, e3]
  have e1 : ∀ lastErr, sendWithRetryGo oracle 3 1 lastErr =
      (match oracle 1 with
       | .ok r => ⟨.ok r, 1, 0⟩
       | .err _ =>
         match oracle 2 with
         | .ok r => ⟨.ok r, 2, 1⟩
         | .err e => ⟨.error (some e), 2, 1⟩ : RetryTrace) := by
    intro lastErr; rw [sendWithRetryGo]
    rcases h : oracle 1 with r | e
    · simp [h]
    · rcases h2 : oracle 2 with r2 | e2' <;> simp [h, h2, e2]
  show sendWithRetryGo oracle 3 0 none = _
  rw [sendWithRetryGo]
  rcases h : oracle 0 with r | e
  · simp [h]
  · rcases h1 : oracle 1 with r1 | e1' <;> rcases h2 : oracle 2 with r2 | e2' <;>
      simp [h, h1, h2, e1]

/-- C1: `sendWithRetry` with retries = 3 performs at most 3 exchange
attempts; it returns the first successfully parsed response, with one
`RETRY_DELAY_MS` delay after each failed non-final attempt (so exactly two
delays, 1000 ms total, when all three attempts fail), and when all attempts
fail it surfaces the error of the final attempt. -/
theorem sendWithRetry_retry_policy (oracle : Nat → SendOutcome) :
    ((sendWithRetry oracle 3).attempts ≤ 3) ∧
    (∀ k resp, k < 3 → oracle k = .ok resp →
      (∀ j, j < k → ∃ e, oracle j = .err e) →
      (sendWithRetry oracle 3).result = .ok resp ∧
      (sendWithRetry oracle 3).attempts = k + 1 ∧
      (sendWithRetry oracle 3).delays = k) ∧
    (∀ e0 e1 e2, oracle 0 = .err e0 → oracle 1 = .err e1 → oracle 2 = .err e2 →
      (sendWithRetry oracle 3).result = .error (some e2) ∧
      (sendWithRetry oracle 3).attempts = 3 ∧
      (sendWithRetry oracle 3).delays = 2 ∧
      (sendWithRetry oracle 3).delays * RETRY_DELAY_MS = 1000) := by
  have E := sendWithRetry3_eq oracle
  refine ⟨?_, ?_, ?_⟩
  · rcases h0 : oracle 0 with r | e <;> rcases h1 : oracle 1 with r1 | e1' <;>
      rcases h2 : oracle 2 with r2 | e2' <;> simp [E, h0, h1, h2]
  · intro k resp hk hok hprev
    interval_cases k
    · rw [E]; simp [hok]
    · obtain ⟨ea, hea⟩ := hprev 0 (by omega)
      rw [E]; simp [hea, hok]
    · obtain ⟨ea, hea⟩ := hprev 0 (by omega)
      obtain ⟨eb, heb⟩ := hprev 1 (by omega)
      rw [E]; simp [hea, heb, hok]
  · intro e0 e1 e2 h0 h1 h2
    rw [E]; simp [h0, h1, h2, RETRY_DELAY_MS]

/-- Witness for C1: with a responder that always times out, three attempts
are made, two delays are slept, and the final timeout is surfaced. -/
theorem sendWithRetry_retry_policy_witness :
    (sendWithRetry (fun _ => .err "timeout") 3).result = .error (some "timeout") ∧
    (sendWithRetry (fun _ => .err "timeout") 3).attempts = 3 ∧
    (sendWithRetry (fun _ => .err "timeout") 3).delays = 2 :=
  let h := (sendWithRetry_retry_policy (fun _ => .err "timeout")).2.2
    "timeout" "timeout" "timeout" rfl rfl rfl
  ⟨h.1, h.2.1, h.2.2.1⟩

/-- C5: every generated command that carries explicit color fields (r, g, b)
also carries both auxiliary white-channel fields `w` and `c` set to zero, and
no generated command contains a temperature field simultaneously with
explicit color fields. -/
theorem generated_color_zeroes_aux_channels (p : WizPilotParams)
    (h : GeneratedCommand p) :
    ((p.r.isSome || p.g.isSome || p.b.isSome) = true → p.w = some 0 ∧ p.c = some 0) ∧
    (p.temp.isSome && (p.r.isSome || p.g.isSome || p.b.isSome)) = false := by
  cases h with
  | movie => simp [movieMode]
  | chill => simp [chillMode]
  | day => simp [dayMode]
  | movieOverride bright hb => simp [movieMode, overrideBrightness]
  | chillOverride bright hb => simp [chillMode, overrideBrightness]
  | dayOverride bright hb => simp [dayMode, overrideBrightness]
  | custom hex bright hhex hb hsome => cases hex <;> simp [customMode]
  | powerOn => simp
  | powerOff => simp

/-- Witness for C5: the command generated for `wiz ff6b35` carries color
fields and indeed has both auxiliary white channels zeroed. -/
theorem generated_color_zeroes_aux_channels_witness :
    (customMode (some "ff6b35") none).params.w = some 0 ∧
    (customMode (some "ff6b35") none).params.c = some 0 :=
  (generated_color_zeroes_aux_channels _
      (.custom (some "ff6b35") none
        (fun s hs => by injection hs with h1; subst h1; decide)
        (fun n hn => by cases hn)
        (Or.inl rfl))).1
    (by decide)

/-- C6 failing input: the repository documentation (README, Protocol
"Quirks") states that RGB-mode minimum dimming is 10, yet the CLI input
`wiz ff0000 -b 5` passes `parseArgs` validation (brightness 1-100,
src/wiz.ts line 161) and generates a color command with dimming 5.
Temperature mode does accept dimming as low as 1 (the movie preset). -/
theorem color_command_below_min_dimming :
    (customMode (some "ff0000") (some 5)).params.r = some 255 ∧
    (customMode (some "ff0000") (some 5)).params.g = some 0 ∧
    (customMode (some "ff0000") (some 5)).params.b = some 0 ∧
    (customMode (some "ff0000") (some 5)).params.dimming = some 5 ∧
    ¬ optGE (customMode (some "ff0000") (some 5)).params.dimming 10 = true ∧
    movieMode.params.temp = some 2200 ∧
    movieMode.params.dimming = some 1 := by
  decide

/-- Environment of one `cmdAnimatedPreset` run (src/wiz.ts lines
1209-1277): the outcomes of the collaborator calls in program order --
address resolution (`requireBulbIp`), the pre-command state read, the
`setPilot` send (through `sendWithRetry`), and the verification state
read (also through `sendWithRetry`). -/
structure PresetEnv where
  resolution : Except String String
  stateQuery : Except Unit WizResponse
  setPilotResp : Except Unit WizResponse
  verifyQuery : Except Unit WizResponse

/-- Observable outcome of a `cmdAnimatedPreset` run: the process exit
code, whether the success animation (`r.finish true`) ran, and the
verification flag deciding between the "mode active" and the
"mode sent (unverified)" status line. -/
structure PresetRun where
  exitCode : Nat
  successAnimation : Bool
  verified : Bool
  deriving DecidableEq, Repr

/-- Control flow of `cmdAnimatedPreset` (src/wiz.ts lines 1209-1277):
a resolution failure exits 1; a `setPilot` failure exits 1; a present ack
whose success flag is not `true` exits 1 ("bulb rejected command"); after
a successful ack the verification read is attempted, any error or a
missing result yielding `verified = false`, and the run always finishes
with the success animation and exit code 0.  The pre-command state read
only feeds the status display. -/
def cmdAnimatedPresetRun (mode : Mode) (env : PresetEnv) : PresetRun :=
  match env.resolution with
  | .error _ => ⟨1, false, false⟩
  | .ok _ =>
    match env.setPilotResp with
    | .error _ => ⟨1, false, false⟩
    | .ok resp =>
      if resp.result.bind (fun r => r.success) = some true then
        let verified :=
          match env.verifyQuery with
          | .ok c =>
            match c.result with
            | some res => mode.verify res.toWizPilotState
            | none => false
          | .error _ => false
        ⟨0, true, verified⟩
      else ⟨1, false, false⟩

/-- A bare successful `setPilot` ack. -/
def ackResponse : WizResponse := { result := some { success := some true } }

/-- Device state snapshot echoing exactly a sent parameter set. -/
def echoState (p : WizPilotParams) : WizPilotState :=
  { state := p.state, dimming := p.dimming, temp := p.temp,
    r := p.r, g := p.g, b := p.b, mac := none }

/-- A `getPilot` response whose result echoes exactly a sent parameter
set. -/
def echoResponse (p : WizPilotParams) : WizResponse :=
  { result := some { toWizPilotState := echoState p, success := none } }

/-- C7: after a successful `setPilot` ack, the run always completes with
exit code 0 and the success animation, whatever the verification read
returns -- a failing verification predicate never escalates to a failed
outcome. -/
theorem ack_success_never_failed (mode : Mode) (env : PresetEnv)
    (ip : String) (resp : WizResponse)
    (hres : env.resolution = .ok ip)
    (hset : env.setPilotResp = .ok resp)
    (hack : resp.result.bind (fun r => r.success) = some true) :
    (cmdAnimatedPresetRun mode env).exitCode = 0 ∧
    (cmdAnimatedPresetRun mode env).successAnimation = true := by
  simp [cmdAnimatedPresetRun, hres, hset, hack]

/-- Witness for C7: a run whose verification read errors out still exits 0
with the success animation. -/
theorem ack_success_never_failed_witness :
    (cmdAnimatedPresetRun chillMode
      ⟨.ok "192.168.1.2", .error (), .ok ackResponse, .error ()⟩).exitCode = 0 ∧
    (cmdAnimatedPresetRun chillMode
      ⟨.ok "192.168.1.2", .error (), .ok ackResponse, .error ()⟩).successAnimation = true :=
  ack_success_never_failed chillMode _ "192.168.1.2" ackResponse rfl rfl rfl

/-- C10: a preset brightness override replaces only the dimming parameter
and keeps the preset's verification predicate, so every override outside
the preset's original tolerance band (chill: 38-42, movie: at most 2, day:
at least 98) makes the predicate reject even a device state identical to
the sent parameters, and such a run always reports the unverified outcome
(while still succeeding). -/
theorem preset_override_unverified (bright : Nat)
    (h1 : 1 ≤ bright) (h2 : bright ≤ 100) :
    ((bright < 38 ∨ 42 < bright) →
      (overrideBrightness chillMode bright).verify
        (echoState (overrideBrightness chillMode bright).params) = false) ∧
    ((2 < bright) →
      (overrideBrightness movieMode bright).verify
        (echoState (overrideBrightness movieMode bright).params) = false) ∧
    ((bright < 98) →
      (overrideBrightness dayMode bright).verify
        (echoState (overrideBrightness dayMode bright).params) = false) ∧
    ((bright < 38 ∨ 42 < bright) →
      ∀ (sq : Except Unit WizResponse) (ip : String) (ack : WizResponse),
        ack.result.bind (fun r => r.success) = some true →
        (cmdAnimatedPresetRun (overrideBrightness chillMode bright)
          ⟨.ok ip, sq, .ok ack,
            .ok (echoResponse (overrideBrightness chillMode bright).params)⟩).verified
            = false ∧
        (cmdAnimatedPresetRun (overrideBrightness chillMode bright)
          ⟨.ok ip, sq, .ok ack,
            .ok (echoResponse (overrideBrightness chillMode bright).params)⟩).exitCode
            = 0) := by
  refine ⟨?_, ?_, ?_, ?_⟩
  · intro hb
    simp [chillMode, overrideBrightness, echoState, optGE, optLE]
    omega
  · intro hb
    simp [movieMode, overrideBrightness, echoState, optGE, optLE]
    omega
  · intro hb
    simp [dayMode, overrideBrightness, echoState, optGE, optLE]
    omega
  · intro hb sq ip ack hack
    have hv : (overrideBrightness chillMode bright).verify
        (echoState (overrideBrightness chillMode bright).params) = false := by
      simp [chillMode, overrideBrightness, echoState, optGE, optLE]
      omega
    constructor
    · simp [cmdAnimatedPresetRun, hack, echoResponse, hv]
    · simp [cmdAnimatedPresetRun, hack]

/-- Witness for C10: `wiz -chill -b 60` on a device that echoes the sent
parameters exactly: the predicate rejects and the run is unverified. -/
theorem preset_override_unverified_witness :
    (overrideBrightness chillMode 60).verify
      (echoState (overrideBrightness chillMode 60).params) = false ∧
    (cmdAnimatedPresetRun (overrideBrightness chillMode 60)
      ⟨.ok "192.168.1.2", .error (), .ok ackResponse,
        .ok (echoResponse (overrideBrightness chillMode 60).params)⟩).verified = false :=
  ⟨(preset_override_unverified 60 (by decide) (by decide)).1 (Or.inr (by decide)),
   ((preset_override_unverified 60 (by decide) (by decide)).2.2.2
     (Or.inr (by decide)) (.error ()) "192.168.1.2" ackResponse rfl).1⟩

/-- Result of one discovery-coordinator run (`discoverByMac`,
src/wiz.ts line 861): the resolved address and whether the subnet-scan
strategy produced it. -/
structure DiscoveryOutcome where
  ip : String
  usedSubnetScan : Bool
  deriving DecidableEq, Repr

/-- Fatal conditions `requireBulbIp` can surface (exit or thrown error,
src/wiz.ts lines 1020-1024 and 1050-1055). -/
inductive ResolveError where
  | noNetworkInterface
  | notFoundOnNetwork
  deriving DecidableEq, Repr

/-- What `requireBulbIp` hands to `saveEnv` (src/wiz.ts lines 1057-1064):
an optional new `WIZ_IP` binding and whether `WIZ_SKIP_BROADCAST=1` is
written. -/
structure EnvUpdates where
  wizIp : Option String := none
  skipBroadcastFlag : Bool := false
  deriving DecidableEq, Repr

/-- Environment of one `requireBulbIp` call (src/wiz.ts lines 1007-1067):
the target identifier, the cached binding (`WIZ_IP`), the outcome of the
short-timeout `getPilot` probe to the cached address (meaningful only when
a cache exists), the local broadcast address if a usable interface exists,
the `WIZ_SKIP_BROADCAST` flag, and the outcomes of the two discovery
entry points the function can call. -/
structure ResolveEnv where
  mac : String
  cachedIp : Option String
  cachedProbe : Except String WizResponse
  broadcastAddr : Option String
  skipBroadcast : Bool
  coordinatorResult : Except Unit DiscoveryOutcome
  subnetScanResult : Except Unit String

/-- Observable trace of a `requireBulbIp` call: the result, how many
probes were sent to the cached address, whether any discovery ran, and
what was persisted. -/
structure ResolveTrace where
  result : Except ResolveError String
  cachedProbes : Nat
  ranDiscovery : Bool
  updates : EnvUpdates

/-- Strategy selection inside `requireBulbIp` (src/wiz.ts lines
1030-1049): with `WIZ_SKIP_BROADCAST` set, `discoverBySubnetScan` runs
alone and `usedSubnetScan` is set; otherwise the coordinator race
`discoverByMac` decides both. -/
def effectiveDiscovery (env : ResolveEnv) : Except Unit DiscoveryOutcome :=
  if env.skipBroadcast then env.subnetScanResult.map (fun ip => ⟨ip, true⟩)
  else env.coordinatorResult

/-- Fall-through phase of `requireBulbIp` once the cache is not reused
(src/wiz.ts lines 1019-1066): no interface is fatal before any discovery;
a discovery failure is `notFoundOnNetwork`; on success `WIZ_IP` is queued
for persistence exactly when it differs from the cache and the
skip-broadcast hint exactly when the subnet scan produced the address on
a run that attempted broadcast. -/
def discoveryPhase (env : ResolveEnv) (probes : Nat) : ResolveTrace :=
  match env.broadcastAddr with
  | none => ⟨.error .noNetworkInterface, probes, false, {}⟩
  | some _ =>
    match effectiveDiscovery env with
    | .error _ => ⟨.error .notFoundOnNetwork, probes, true, {}⟩
    | .ok o =>
        ⟨.ok o.ip, probes, true,
         { wizIp := if env.cachedIp = some o.ip then none else some o.ip,
           skipBroadcastFlag := o.usedSubnetScan && !env.skipBroadcast }⟩

/-- `requireBulbIp` (src/wiz.ts lines 1007-1067): with a cached address,
one short-timeout `getPilot` probe is sent to it; if the reply's
identifier equals the target the cached address is returned with nothing
persisted; otherwise (mismatch, missing reply field, or any probe error)
the call falls through to the discovery phase. -/
def requireBulbIp (env : ResolveEnv) : ResolveTrace :=
  match env.cachedIp with
  | some ip =>
    match env.cachedProbe with
    | .ok resp =>
        if resp.result.bind (fun r => r.mac) = some env.mac then ⟨.ok ip, 1, false, {}⟩
        else discoveryPhase env 1
    | .error _ => discoveryPhase env 1
  | none => discoveryPhase env 0

/-- Whether the cached-address probe revalidated the cache. -/
def cacheValid (env : ResolveEnv) : Bool :=
  match env.cachedIp, env.cachedProbe with
  | some _, .ok resp => decide (resp.result.bind (fun r => r.mac) = some env.mac)
  | _, _ => false

/-- Probe count of the discovery phase is whatever was already sent. -/
theorem discoveryPhase_probes (env : ResolveEnv) (probes : Nat) :
    (discoveryPhase env probes).cachedProbes = probes := by
  rcases hb : env.broadcastAddr with _ | addr
  · simp [discoveryPhase, hb]
  · rcases hd : effectiveDiscovery env with u | o <;> simp [discoveryPhase, hb, hd]

/-- With a usable interface the discovery phase always runs discovery. -/
theorem discoveryPhase_ran (env : ResolveEnv) (probes : Nat)
    (hb : env.broadcastAddr.isSome = true) :
    (discoveryPhase env probes).ranDiscovery = true := by
  rcases hb2 : env.broadcastAddr with _ | addr
  · rw [hb2] at hb; simp at hb
  · rcases hd : effectiveDiscovery env with u | o <;> simp [discoveryPhase, hb2, hd]

/-- When the discovery phase reports no discovery run, it failed for lack
of a network interface. -/
theorem discoveryPhase_no_run (env : ResolveEnv) (probes : Nat)
    (h : (discoveryPhase env probes).ranDiscovery = false) :
    (discoveryPhase env probes).result = .error .noNetworkInterface := by
  rcases hb : env.broadcastAddr with _ | addr
  · simp [discoveryPhase, hb]
  · rcases hd : effectiveDiscovery env with u | o <;>
      simp [discoveryPhase, hb, hd] at h ⊢

/-- C2: with a cached address, resolution issues exactly one short-timeout
state query to it; the cached address is returned with no discovery run
iff that query's reply carries the target identifier; and on a mismatching
identifier, a missing reply field, or any probe error -- given a usable
network interface -- the cached address is discarded and discovery runs
instead. -/
theorem cached_probe_policy (env : ResolveEnv) (ip : String)
    (hc : env.cachedIp = some ip) :
    (requireBulbIp env).cachedProbes = 1 ∧
    (((requireBulbIp env).result = .ok ip ∧ (requireBulbIp env).ranDiscovery = false) ↔
      (∃ resp, env.cachedProbe = .ok resp ∧
        resp.result.bind (fun r => r.mac) = some env.mac)) ∧
    ((∀ resp, env.cachedProbe = .ok resp →
        resp.result.bind (fun r => r.mac) ≠ some env.mac) →
      env.broadcastAddr.isSome = true →
      (requireBulbIp env).ranDiscovery = true) := by
  rcases hp : env.cachedProbe with e | resp
  · have hreq : requireBulbIp env = discoveryPhase env 1 := by
      simp [requireBulbIp, hc, hp]
    refine ⟨?_, ?_, ?_⟩
    · simp [hreq, discoveryPhase_probes]
    · constructor
      · rintro ⟨hres, hran⟩
        rw [hreq] at hres hran
        rw [discoveryPhase_no_run env 1 hran] at hres
        exact absurd hres (by simp)
      · rintro ⟨resp, hresp, _⟩
        exact absurd hresp (by simp)
    · intro _ hb
      rw [hreq]
      exact discoveryPhase_ran env 1 hb
  · by_cases hm : resp.result.bind (fun r => r.mac) = some env.mac
    · have hreq : requireBulbIp env = ⟨.ok ip, 1, false, {}⟩ := by
        simp [requireBulbIp, hc, hp, hm]
      refine ⟨?_, ?_, ?_⟩
      · simp [hreq]
      · constructor
        · intro _; exact ⟨resp, rfl, hm⟩
        · intro _; simp [hreq]
      · intro hall _
        exact absurd hm (hall resp rfl)
    · have hreq : requireBulbIp env = discoveryPhase env 1 := by
        simp [requireBulbIp, hc, hp, hm]
      refine ⟨?_, ?_, ?_⟩
      · simp [hreq, discoveryPhase_probes]
      · constructor
        · rintro ⟨hres, hran⟩
          rw [hreq] at hres hran
          rw [discoveryPhase_no_run env 1 hran] at hres
          exact absurd hres (by simp)
        · rintro ⟨resp2, hresp2, hm2⟩
          injection hresp2 with h2
          subst h2
          exact absurd hm2 hm
      · intro _ hb
        rw [hreq]
        exact discoveryPhase_ran env 1 hb

/-- Probe reply naming the given identifier. -/
def probeReply (mac : String) : WizResponse :=
  { result := some { mac := some mac } }

/-- Concrete environment with a fresh cached binding. -/
def cachedResolveEnv : ResolveEnv where
  mac := "aabbccddeeff"
  cachedIp := some "10.0.0.5"
  cachedProbe := .ok (probeReply "aabbccddeeff")
  broadcastAddr := some "10.0.0.255"
  skipBroadcast := false
  coordinatorResult := .error ()
  subnetScanResult := .error ()

/-- Witness for C2: a matching cached probe yields exactly one probe, the
cached address back, and no discovery. -/
theorem cached_probe_policy_witness :
    (requireBulbIp cachedResolveEnv).cachedProbes = 1 ∧
    ((requireBulbIp cachedResolveEnv).result = .ok "10.0.0.5" ∧
      (requireBulbIp cachedResolveEnv).ranDiscovery = false) :=
  ⟨(cached_probe_policy cachedResolveEnv "10.0.0.5" rfl).1,
   (cached_probe_policy cachedResolveEnv "10.0.0.5" rfl).2.1.mpr
     ⟨probeReply "aabbccddeeff", rfl, rfl⟩⟩

/-- C8: a revalidated cache persists nothing; a discovery-phase success
persists the binding exactly when the resolved address differs from the
cached one (including a first resolution with no cache), and the
skip-broadcast flag exactly when the subnet scan produced the address on
a run where broadcast was attempted. -/
theorem persistence_policy (env : ResolveEnv) :
    (cacheValid env = true → (requireBulbIp env).updates = {}) ∧
    (∀ addr o, cacheValid env = false → env.broadcastAddr = some addr →
      effectiveDiscovery env = .ok o →
      (requireBulbIp env).result = .ok o.ip ∧
      (requireBulbIp env).updates.wizIp
        = (if env.cachedIp = some o.ip then none else some o.ip) ∧
      ((requireBulbIp env).updates.wizIp ≠ none ↔ env.cachedIp ≠ some o.ip) ∧
      (requireBulbIp env).updates.skipBroadcastFlag
        = (o.usedSubnetScan && !env.skipBroadcast)) := by
  constructor
  · intro hv
    rcases hc : env.cachedIp with _ | ip
    · simp [cacheValid, hc] at hv
    · rcases hp : env.cachedProbe with e | resp
      · simp [cacheValid, hc, hp] at hv
      · have hm : resp.result.bind (fun r => r.mac) = some env.mac := by
          simpa [cacheValid, hc, hp] using hv
        simp [requireBulbIp, hc, hp, hm]
  · intro addr o hv hb hd
    have hphase : ∀ probes,
        (discoveryPhase env probes).result = .ok o.ip ∧
        (discoveryPhase env probes).updates.wizIp
          = (if env.cachedIp = some o.ip then none else some o.ip) ∧
        ((discoveryPhase env probes).updates.wizIp ≠ none ↔ env.cachedIp ≠ some o.ip) ∧
        (discoveryPhase env probes).updates.skipBroadcastFlag
          = (o.usedSubnetScan && !env.skipBroadcast) := by
      intro probes
      by_cases hip : env.cachedIp = some o.ip <;>
        simp [discoveryPhase, hb, hd, hip]
    rcases hc : env.cachedIp with _ | ip
    · simpa [requireBulbIp, hc] using hphase 0
    · rcases hp : env.cachedProbe with e | resp
      · simpa [requireBulbIp, hc, hp] using hphase 1
      · have hm : ¬ resp.result.bind (fun r => r.mac) = some env.mac := by
          intro hmm
          rw [cacheValid, hc, hp] at hv
          simp [hmm] at hv
        simpa [requireBulbIp, hc, hp, hm] using hphase 1

/-- Concrete environment with no cache where the subnet scan wins on a
broadcast-attempting run. -/
def scanResolveEnv : ResolveEnv where
  mac := "aabbccddeeff"
  cachedIp := none
  cachedProbe := .error "timeout"
  broadcastAddr := some "192.168.1.255"
  skipBroadcast := false
  coordinatorResult := .ok ⟨"192.168.1.77", true⟩
  subnetScanResult := .error ()

/-- Witness for C8: first resolution via subnet scan persists both the
binding and the skip-broadcast hint. -/
theorem persistence_policy_witness :
    (requireBulbIp scanResolveEnv).updates.wizIp = some "192.168.1.77" ∧
    (requireBulbIp scanResolveEnv).updates.skipBroadcastFlag = true := by
  have h := (persistence_policy scanResolveEnv).2 "192.168.1.255"
    ⟨"192.168.1.77", true⟩ rfl rfl rfl
  exact ⟨by simpa using h.2.1, by simpa using h.2.2.2⟩

/-- Completion events of the two strategies racing inside `discoverByMac`
(src/wiz.ts lines 861-885): each of broadcast discovery and subnet scan
either finds the device at some address or fails. -/
inductive DiscEvent where
  | broadcastOk (ip : String)
  | broadcastFail
  | scanOk (ip : String)
  | scanFail
  deriving DecidableEq, Repr

/-- State of the manually flagged race in `discoverByMac`: the `settled`
flag guarding `finish`, the failure counter, and the settlement of the
surrounding promise (`none` while pending; the pair carries the address
and `usedSubnetScan`). -/
structure RaceState where
  settled : Bool
  failures : Nat
  outcome : Option (Except Unit (String × Bool))

/-- One completion event processed by `discoverByMac`'s handlers
(src/wiz.ts lines 866-877): a success calls `finish`, which resolves the
promise unless `settled` is already set; a failure increments `failures`
and rejects once two failures are seen.  A promise keeps its first
settlement, modelled by `Option.orElse`. -/
def raceStep (s : RaceState) (e : DiscEvent) : RaceState :=
  match e with
  | .broadcastOk ip =>
      if s.settled then s
      else ⟨true, s.failures, s.outcome.orElse fun _ => some (.ok (ip, false))⟩
  | .scanOk ip =>
      if s.settled then s
      else ⟨true, s.failures, s.outcome.orElse fun _ => some (.ok (ip, true))⟩
  | .broadcastFail =>
      ⟨s.settled, s.failures + 1,
       if s.failures + 1 ≥ 2 then s.outcome.orElse fun _ => some (.error ()) else s.outcome⟩
  | .scanFail =>
      ⟨s.settled, s.failures + 1,
       if s.failures + 1 ≥ 2 then s.outcome.orElse fun _ => some (.error ()) else s.outcome⟩

/-- A `discoverByMac` run over its strategy-completion events in arrival
order. -/
def discoverByMacRun (events : List DiscEvent) : RaceState :=
  events.foldl raceStep ⟨false, 0, none⟩

/-- Whether an event belongs to the broadcast strategy. -/
def isBroadcastEvent : DiscEvent → Bool
  | .broadcastOk _ => true
  | .broadcastFail => true
  | _ => false

/-- Whether an event belongs to the subnet-scan strategy. -/
def isScanEvent : DiscEvent → Bool
  | .scanOk _ => true
  | .scanFail => true
  | _ => false

/-- Each strategy completes at most once. -/
def WFEvents (es : List DiscEvent) : Prop :=
  es.countP isBroadcastEvent ≤ 1 ∧ es.countP isScanEvent ≤ 1

/-- The success payload of an event, if any. -/
def eventOk : DiscEvent → Option (String × Bool)
  | .broadcastOk ip => some (ip, false)
  | .scanOk ip => some (ip, true)
  | _ => none

/-- First strategy success among the events, with its method flag. -/
def firstOk (es : List DiscEvent) : Option (String × Bool) :=
  es.findSome? eventOk

/-- Every event belongs to exactly one strategy. -/
theorem countP_strategies (es : List DiscEvent) :
    es.countP isBroadcastEvent + es.countP isScanEvent = es.length := by
  induction es with
  | nil => simp
  | cons e t ih =>
      cases e <;> simp [List.countP_cons, isBroadcastEvent, isScanEvent] <;> omega

/-- C3: the `discoverByMac` race resolves with the address and method of
whichever strategy first returns a match, and rejects with not-found
exactly when both independent failures have been observed; a single
strategy failure alone never produces the not-found outcome. -/
theorem race_policy (es : List DiscEvent) (hwf : WFEvents es) :
    (∀ ip m, firstOk es = some (ip, m) →
      (discoverByMacRun es).outcome = some (.ok (ip, m))) ∧
    ((discoverByMacRun es).outcome = some (.error ()) ↔
      (DiscEvent.broadcastFail ∈ es ∧ DiscEvent.scanFail ∈ es)) ∧
    (((DiscEvent.broadcastFail ∈ es ∧ DiscEvent.scanFail ∉ es) ∨
      (DiscEvent.scanFail ∈ es ∧ DiscEvent.broadcastFail ∉ es)) →
      (discoverByMacRun es).outcome ≠ some (.error ())) := by
  have hlen : es.length ≤ 2 := by
    have hcc := countP_strategies es
    obtain ⟨h1, h2⟩ := hwf
    omega
  match es, hlen with
  | [], _ =>
      refine ⟨?_, ?_, ?_⟩ <;> simp [firstOk, discoverByMacRun]
  | [a], _ =>
      cases a <;>
        refine ⟨?_, ?_, ?_⟩ <;>
          simp [firstOk, discoverByMacRun, raceStep, eventOk]
  | [a, b], _ =>
      cases a <;> cases b <;>
        first
        | (exfalso
           simp [WFEvents, List.countP_cons, isBroadcastEvent, isScanEvent] at hwf
           done)
        | (refine ⟨?_, ?_, ?_⟩ <;>
            simp [firstOk, discoverByMacRun, raceStep, eventOk, Option.orElse])
  | _ :: _ :: _ :: _, h => simp at h

/-- Witness for C3: Scenario B -- the broadcast fails, the scan then finds
the device; the race resolves with the scan's address and method and does
not report not-found. -/
theorem race_policy_witness :
    (discoverByMacRun [.broadcastFail, .scanOk "192.168.1.77"]).outcome
      = some (.ok ("192.168.1.77", true)) ∧
    (discoverByMacRun [.broadcastFail, .scanOk "192.168.1.77"]).outcome
      ≠ some (.error ()) :=
  ⟨(race_policy [.broadcastFail, .scanOk "192.168.1.77"] (by constructor <;> decide)).1
      "192.168.1.77" true rfl,
   (race_policy [.broadcastFail, .scanOk "192.168.1.77"] (by constructor <;> decide)).2.2
      (Or.inl ⟨by decide, by decide⟩)⟩

/-- Timed outcome of the broadcast strategy: whether it found the device,
at which address, and its completion time in ms from the race start (a
failure is the 3000 ms broadcast timeout or an earlier socket error). -/
structure TimedBroadcast where
  ok : Bool
  ip : String
  t : Nat
  deriving DecidableEq, Repr

/-- Timed outcome of the subnet scan once started: whether it found the
device, where, and how long it ran from its start. -/
structure TimedScan where
  ok : Bool
  ip : String
  dur : Nat
  deriving DecidableEq, Repr

/-- Whether the subnet scan is started at the `SCAN_GRACE_MS` tick
(src/wiz.ts lines 879-883): the tick skips the scan only when the race is
already settled, and only a broadcast success strictly before the tick
settles it (a broadcast failure merely counts a failure).  The scan
issues its first probe batch immediately on start, so a started scan
means at least one batch is issued. -/
def scanStarted (b : TimedBroadcast) : Bool :=
  !(b.ok && decide (b.t < SCAN_GRACE_MS))

/-- Completion events of the timed race in arrival order: the broadcast
completion at `b.t` and, when the scan was started, its completion at
`SCAN_GRACE_MS + sc.dur` (a tie is resolved in favour of the broadcast
handler). -/
def timedEvents (b : TimedBroadcast) (sc : TimedScan) : List DiscEvent :=
  let bev : DiscEvent := if b.ok then .broadcastOk b.ip else .broadcastFail
  if scanStarted b then
    let sev : DiscEvent := if sc.ok then .scanOk sc.ip else .scanFail
    if b.t ≤ SCAN_GRACE_MS + sc.dur then [bev, sev] else [sev, bev]
  else [bev]

/-- `discoverByMac` over the timed semantics. -/
def discoverByMacTimed (b : TimedBroadcast) (sc : TimedScan) : RaceState :=
  discoverByMacRun (timedEvents b sc)

/-- C9 counterexample: a responder answering the broadcast probe at
1000 ms -- within the 3000 ms collection window -- does not prevent the
subnet scan: the scan was already started at the 500 ms tick, so a scan
batch is issued even though resolution still completes via the broadcast
path; and with a slow broadcast reply (2900 ms) a fast scan settles the
race first, so resolution does not even complete via the broadcast path. -/
theorem broadcast_window_still_scans :
    ((⟨true, "192.168.1.50", 1000⟩ : TimedBroadcast).ok = true ∧
      (⟨true, "192.168.1.50", 1000⟩ : TimedBroadcast).t < DISCOVERY_TIMEOUT_MS ∧
      scanStarted ⟨true, "192.168.1.50", 1000⟩ = true ∧
      (discoverByMacTimed ⟨true, "192.168.1.50", 1000⟩ ⟨false, "", 10000⟩).outcome
        = some (.ok ("192.168.1.50", false))) ∧
    ((⟨true, "192.168.1.50", 2900⟩ : TimedBroadcast).t < DISCOVERY_TIMEOUT_MS ∧
      (discoverByMacTimed ⟨true, "192.168.1.50", 2900⟩ ⟨true, "192.168.1.50", 300⟩).outcome
        = some (.ok ("192.168.1.50", true))) :=
  ⟨⟨rfl, by decide, rfl, rfl⟩, ⟨by decide, rfl⟩⟩

/-- C9 (amended): if the responder answers the broadcast probe within the
500 ms grace delay, resolution completes via the broadcast path and no
subnet-scan batch is issued; the subnet scan is started (only at the
500 ms grace tick) exactly when the race has not already been settled by
such a broadcast success. -/
theorem grace_delay_policy (b : TimedBroadcast) (sc : TimedScan) :
    (b.ok = true → b.t < SCAN_GRACE_MS →
      (discoverByMacTimed b sc).outcome = some (.ok (b.ip, false)) ∧
      scanStarted b = false) ∧
    (scanStarted b = true ↔ ¬(b.ok = true ∧ b.t < SCAN_GRACE_MS)) := by
  constructor
  · intro hok ht
    have hs : scanStarted b = false := by simp [scanStarted, hok, ht]
    refine ⟨?_, hs⟩
    simp [discoverByMacTimed, timedEvents, hs, hok, discoverByMacRun, raceStep]
  · cases hok : b.ok <;> by_cases ht : b.t < SCAN_GRACE_MS <;>
      simp [scanStarted, hok, ht]

/-- Witness for C9 (amended): a broadcast answer at 100 ms resolves via
broadcast with the scan never started. -/
theorem grace_delay_policy_witness :
    (discoverByMacTimed ⟨true, "192.168.1.50", 100⟩ ⟨false, "", 0⟩).outcome
      = some (.ok ("192.168.1.50", false)) ∧
    scanStarted ⟨true, "192.168.1.50", 100⟩ = false :=
  (grace_delay_policy ⟨true, "192.168.1.50", 100⟩ ⟨false, "", 0⟩).1 rfl (by decide)

/-- A network interface record as reported by `networkInterfaces()`: the
fields `discoverBySubnetScan` inspects (src/wiz.ts lines 843-846). -/
structure Iface where
  family : String
  internal : Bool
  address : String
  deriving DecidableEq, Repr

/-- JavaScript `address.split(".")` over the character list. -/
def splitOnDot (cs : List Char) : List (List Char) :=
  match cs with
  | [] => [[]]
  | ch :: rest =>
      let r := splitOnDot rest
      if ch = '.' then [] :: r
      else
        match r with
        | [] => [[ch]]
        | grp :: t => (ch :: grp) :: t

/-- `address.split(".").slice(0, 3).join(".")` (src/wiz.ts line 845). -/
def firstThree (addr : String) : String :=
  String.intercalate "." (((splitOnDot addr.toList).map String.mk).take 3)

/-- The interface filter of the scan's base derivation:
`a.family === "IPv4" && !a.internal`. -/
def usableIface (a : Iface) : Bool :=
  a.family == "IPv4" && !a.internal

/-- The /24 base derivation of `discoverBySubnetScan` (src/wiz.ts lines
842-848): the nested loop over the interface groups returns the first
three octets of the first non-loopback IPv4 interface's address. -/
def deriveBase (groups : List (List Iface)) : Option String :=
  groups.findSome? fun addrs =>
    addrs.findSome? fun a =>
      if usableIface a then some (firstThree a.address) else none

/-- Batch loop of `discoverBySubnetScan` (src/wiz.ts lines 850-857) from
batch start `s`: the batch probes host octets `s` to
`min (s + 50) 255 - 1`; `oracle i` says whether the probe of host `i`
resolves (its reply matches the identifier); the first resolving probe of
the batch ends the loop with its host octet, otherwise the next batch
starts at `s + 50`; past 254 the loop ends empty.  Returns the found host
octet and the list of issued batches. -/
def scanFrom (oracle : Nat → Bool) (s : Nat) : Option Nat × List (List Nat) :=
  if _h : s < 255 then
    let hosts := List.range' s (min (s + SUBNET_BATCH_SIZE) 255 - s)
    match hosts.find? oracle with
    | some i => (some i, [hosts])
    | none =>
        let rest := scanFrom oracle (s + SUBNET_BATCH_SIZE)
        (rest.1, hosts :: rest.2)
  else (none, [])
  termination_by 255 - s
  decreasing_by simp only [SUBNET_BATCH_SIZE]; omega

/-- `discoverBySubnetScan` (src/wiz.ts lines 841-859): derive the /24
base ("no network" without one), scan from host .1, and format the found
address; exhaustion is "not found". -/
def discoverBySubnetScan (groups : List (List Iface)) (oracle : Nat → Bool) :
    Except String String :=
  match deriveBase groups with
  | none => .error "no network"
  | some base =>
    match (scanFrom oracle 1).1 with
    | some i => .ok (base ++ "." ++ toString i)
    | none => .error "not found"

/-- Unfolding of `scanFrom` below the bound. -/
theorem scanFrom_eq_of_lt (oracle : Nat → Bool) (s : Nat) (h : s < 255) :
    scanFrom oracle s =
      (match (List.range' s (min (s + SUBNET_BATCH_SIZE) 255 - s)).find? oracle with
       | some i => (some i, [List.range' s (min (s + SUBNET_BATCH_SIZE) 255 - s)])
       | none =>
           ((scanFrom oracle (s + SUBNET_BATCH_SIZE)).1,
            List.range' s (min (s + SUBNET_BATCH_SIZE) 255 - s) ::
              (scanFrom oracle (s + SUBNET_BATCH_SIZE)).2)) := by
  rw [scanFrom, dif_pos h]

/-- Unfolding of `scanFrom` at or past the bound. -/
theorem scanFrom_eq_of_ge (oracle : Nat → Bool) (s : Nat) (h : 255 ≤ s) :
    scanFrom oracle s = (none, []) := by
  rw [scanFrom, dif_neg (by omega)]

/-- `scanFrom` when the current batch finds a match. -/
theorem scanFrom_eq_found (oracle : Nat → Bool) (s i : Nat) (h : s < 255)
    (hf : (List.range' s (min (s + SUBNET_BATCH_SIZE) 255 - s)).find? oracle = some i) :
    scanFrom oracle s =
      (some i, [List.range' s (min (s + SUBNET_BATCH_SIZE) 255 - s)]) := by
  rw [scanFrom_eq_of_lt oracle s h, hf]

/-- `scanFrom` when the current batch misses. -/
theorem scanFrom_eq_next (oracle : Nat → Bool) (s : Nat) (h : s < 255)
    (hf : (List.range' s (min (s + SUBNET_BATCH_SIZE) 255 - s)).find? oracle = none) :
    scanFrom oracle s =
      ((scanFrom oracle (s + SUBNET_BATCH_SIZE)).1,
       List.range' s (min (s + SUBNET_BATCH_SIZE) 255 - s) ::
         (scanFrom oracle (s + SUBNET_BATCH_SIZE)).2) := by
  rw [scanFrom_eq_of_lt oracle s h, hf]

/-- `List.find?` over a `range'` returns the least satisfying element. -/
theorem find?_range'_min (p : Nat → Bool) :
    ∀ (len s i : Nat), (List.range' s len).find? p = some i →
      ∀ j, s ≤ j → j < i → p j = false := by
  intro len
  induction len with
  | zero =>
      intro s i h
      simp at h
  | succ n ih =>
      intro s i h j hsj hji
      rw [List.range'_succ] at h
      cases hps : p s with
      | false =>
          rw [List.find?_cons_of_neg _ (by simp [hps])] at h
          rcases Nat.eq_or_lt_of_le hsj with heq | hlt
          · rw [← heq]
            exact hps
          · exact ih (s + 1) i h j hlt hji
      | true =>
          rw [List.find?_cons_of_pos _ hps] at h
          injection h with hh
          exfalso
          omega

/-- Every batch issued by the scan has at most `SUBNET_BATCH_SIZE`
hosts. -/
theorem scanFrom_batch_len (oracle : Nat → Bool) :
    ∀ n s, 255 - s ≤ n → ∀ bt ∈ (scanFrom oracle s).2, bt.length ≤ SUBNET_BATCH_SIZE := by
  intro n
  induction n with
  | zero =>
      intro s hs bt hbt
      rw [scanFrom_eq_of_ge oracle s (by omega)] at hbt
      simp at hbt
  | succ n ih =>
      intro s hs bt hbt
      by_cases h : s < 255
      · rcases hf : (List.range' s (min (s + SUBNET_BATCH_SIZE) 255 - s)).find? oracle
          with _ | i
        · rw [scanFrom_eq_next oracle s h hf] at hbt
          dsimp only at hbt
          rcases List.mem_cons.mp hbt with rfl | hbt2
          · simp only [List.length_range', SUBNET_BATCH_SIZE]
            omega
          · exact ih (s + SUBNET_BATCH_SIZE)
              (by simp only [SUBNET_BATCH_SIZE] at hs ⊢; omega) bt hbt2
        · rw [scanFrom_eq_found oracle s i h hf] at hbt
          dsimp only at hbt
          rcases List.mem_singleton.mp hbt with rfl
          simp only [List.length_range', SUBNET_BATCH_SIZE]
          omega
      · rw [scanFrom_eq_of_ge oracle s (by omega)] at hbt
        simp at hbt

/-- The scan from `s` comes up empty iff no host in `[s, 255)`
answers. -/
theorem scanFrom_none_iff (oracle : Nat → Bool) :
    ∀ n s, 255 - s ≤ n →
      ((scanFrom oracle s).1 = none ↔ ∀ i, s ≤ i → i < 255 → oracle i = false) := by
  intro n
  induction n with
  | zero =>
      intro s hs
      rw [scanFrom_eq_of_ge oracle s (by omega)]
      constructor
      · intro _ i hsi hi
        omega
      · intro _
        rfl
  | succ n ih =>
      intro s hs
      by_cases h : s < 255
      · rcases hf : (List.range' s (min (s + SUBNET_BATCH_SIZE) 255 - s)).find? oracle
          with _ | i
        · rw [scanFrom_eq_next oracle s h hf]
          dsimp only
          have hbatch : ∀ i, s ≤ i → i < min (s + SUBNET_BATCH_SIZE) 255 →
              oracle i = false := by
            intro i hsi hi
            have hmem : i ∈ List.range' s (min (s + SUBNET_BATCH_SIZE) 255 - s) := by
              rw [List.mem_range'_1]
              omega
            simpa using List.find?_eq_none.mp hf i hmem
          have hrest := ih (s + SUBNET_BATCH_SIZE)
            (by simp only [SUBNET_BATCH_SIZE] at hs ⊢; omega)
          constructor
          · intro hnone i hsi hi
            by_cases hcase : i < min (s + SUBNET_BATCH_SIZE) 255
            · exact hbatch i hsi hcase
            · refine (hrest.mp hnone) i ?_ hi
              simp only [SUBNET_BATCH_SIZE] at hcase ⊢
              omega
          · intro hall
            refine hrest.mpr fun i hsi hi => hall i ?_ hi
            simp only [SUBNET_BATCH_SIZE] at hsi ⊢
            omega
        · rw [scanFrom_eq_found oracle s i h hf]
          dsimp only
          have hpi : oracle i = true := List.find?_some hf
          have hmem := List.mem_range'_1.mp (List.mem_of_find?_eq_some hf)
          constructor
          · intro hcontra
            exact absurd hcontra (by simp)
          · intro hall
            have hfalse := hall i (by omega) (by omega)
            rw [hpi] at hfalse
            exact absurd hfalse (by simp)
      · rw [scanFrom_eq_of_ge oracle s (by omega)]
        constructor
        · intro _ i hsi hi
          omega
        · intro _
          rfl

/-- An exhausted scan from `s` has probed exactly the hosts `[s, 255)`,
in order. -/
theorem scanFrom_none_flatten (oracle : Nat → Bool) :
    ∀ n s, 255 - s ≤ n → (scanFrom oracle s).1 = none →
      (scanFrom oracle s).2.flatten = List.range' s (255 - s) := by
  intro n
  induction n with
  | zero =>
      intro s hs _
      rw [scanFrom_eq_of_ge oracle s (by omega)]
      have h0 : 255 - s = 0 := by omega
      simp [h0]
  | succ n ih =>
      intro s hs hnone
      by_cases h : s < 255
      · rcases hf : (List.range' s (min (s + SUBNET_BATCH_SIZE) 255 - s)).find? oracle
          with _ | i
        · rw [scanFrom_eq_next oracle s h hf] at hnone ⊢
          dsimp only at hnone ⊢
          rw [List.flatten_cons]
          rw [ih (s + SUBNET_BATCH_SIZE)
            (by simp only [SUBNET_BATCH_SIZE] at hs ⊢; omega) hnone]
          rcases le_or_lt (s + SUBNET_BATCH_SIZE) 255 with hle | hgt
          · have h1 : min (s + SUBNET_BATCH_SIZE) 255 - s = SUBNET_BATCH_SIZE := by
              omega
            rw [h1]
            have happ := List.range'_append s SUBNET_BATCH_SIZE
              (255 - (s + SUBNET_BATCH_SIZE)) 1
            simp only [Nat.one_mul, Nat.mul_one] at happ
            rw [show 255 - (s + SUBNET_BATCH_SIZE) + SUBNET_BATCH_SIZE = 255 - s from by
              simp only [SUBNET_BATCH_SIZE] at hle ⊢; omega] at happ
            exact happ
          · have h1 : min (s + SUBNET_BATCH_SIZE) 255 - s = 255 - s := by omega
            have h2 : 255 - (s + SUBNET_BATCH_SIZE) = 0 := by
              simp only [SUBNET_BATCH_SIZE] at hgt ⊢
              omega
            rw [h1, h2]
            simp
        · rw [scanFrom_eq_found oracle s i h hf] at hnone
          exact absurd hnone (by simp)
      · rw [scanFrom_eq_of_ge oracle s (by omega)]
        have h0 : 255 - s = 0 := by omega
        simp [h0]

/-- A successful scan from `s` found the least answering host in
`[s, 255)`, and the batch containing it is the last one issued. -/
theorem scanFrom_some_spec (oracle : Nat → Bool) :
    ∀ n s i, 255 - s ≤ n → (scanFrom oracle s).1 = some i →
      oracle i = true ∧ s ≤ i ∧ i < 255 ∧
      (∀ j, s ≤ j → j < i → oracle j = false) ∧
      ∃ pre lastb, (scanFrom oracle s).2 = pre ++ [lastb] ∧ i ∈ lastb ∧
        ∀ bt ∈ pre, ∀ j ∈ bt, oracle j = false := by
  intro n
  induction n with
  | zero =>
      intro s i hs hsome
      rw [scanFrom_eq_of_ge oracle s (by omega)] at hsome
      exact absurd hsome (by simp)
  | succ n ih =>
      intro s i hs hsome
      by_cases h : s < 255
      · rcases hf : (List.range' s (min (s + SUBNET_BATCH_SIZE) 255 - s)).find? oracle
          with _ | i0
        · rw [scanFrom_eq_next oracle s h hf] at hsome ⊢
          dsimp only at hsome ⊢
          have hrec := ih (s + SUBNET_BATCH_SIZE) i
            (by simp only [SUBNET_BATCH_SIZE] at hs ⊢; omega) hsome
          obtain ⟨ho, hsi, hi255, hmin, pre, lastb, hsplit, hmem, hpre⟩ := hrec
          have hbatch : ∀ j, s ≤ j → j < min (s + SUBNET_BATCH_SIZE) 255 →
              oracle j = false := by
            intro j hj1 hj2
            have hmem2 : j ∈ List.range' s (min (s + SUBNET_BATCH_SIZE) 255 - s) := by
              rw [List.mem_range'_1]
              omega
            simpa using List.find?_eq_none.mp hf j hmem2
          refine ⟨ho, by simp only [SUBNET_BATCH_SIZE] at hsi ⊢; omega, hi255, ?_, ?_⟩
          · intro j hsj hji
            by_cases hc : j < min (s + SUBNET_BATCH_SIZE) 255
            · exact hbatch j hsj hc
            · refine hmin j ?_ hji
              simp only [SUBNET_BATCH_SIZE] at hc ⊢
              omega
          · refine ⟨List.range' s (min (s + SUBNET_BATCH_SIZE) 255 - s) :: pre,
              lastb, ?_, hmem, ?_⟩
            · rw [hsplit]
              simp
            · intro bt hbt j hj
              rcases List.mem_cons.mp hbt with rfl | hbt2
              · have hj2 := List.mem_range'_1.mp hj
                exact hbatch j (by omega) (by omega)
              · exact hpre bt hbt2 j hj
        · rw [scanFrom_eq_found oracle s i0 h hf] at hsome ⊢
          dsimp only at hsome ⊢
          injection hsome with hii
          subst hii
          have hpi : oracle i0 = true := List.find?_some hf
          have hmem := List.mem_range'_1.mp (List.mem_of_find?_eq_some hf)
          refine ⟨hpi, by omega, by omega, ?_,
            [], List.range' s (min (s + SUBNET_BATCH_SIZE) 255 - s), by simp,
            List.mem_of_find?_eq_some hf, by simp⟩
          intro j hsj hji
          exact find?_range'_min oracle _ s i0 hf j hsj hji
      · rw [scanFrom_eq_of_ge oracle s (by omega)] at hsome
        exact absurd hsome (by simp)

/-- `List.findSome?` distributes over an append. -/
theorem findSome?_append {α β : Type} (f : α → Option β) (l1 l2 : List α) :
    (l1 ++ l2).findSome? f = ((l1.findSome? f).orElse fun _ => l2.findSome? f) := by
  induction l1 with
  | nil => simp
  | cons a t ih =>
      cases hfa : f a <;> simp [List.findSome?_cons, hfa, ih]

/-- `List.findSome?` over a flattened list of lists is the nested
first-hit search. -/
theorem findSome?_flatten {α β : Type} (f : α → Option β) (l : List (List α)) :
    l.flatten.findSome? f = l.findSome? fun xs => xs.findSome? f := by
  induction l with
  | nil => simp
  | cons xs t ih =>
      rw [List.flatten_cons, findSome?_append, ih]
      cases hx : xs.findSome? f <;> simp [List.findSome?_cons, hx]

/-- A mapped `List.find?` is a `List.findSome?`. -/
theorem find?_map_eq_findSome? {α β : Type} (p : α → Bool) (g : α → β) (l : List α) :
    (l.find? p).map g = l.findSome? fun a => if p a then some (g a) else none := by
  induction l with
  | nil => simp
  | cons a t ih =>
      cases hpa : p a with
      | true =>
          rw [List.find?_cons_of_pos _ hpa]
          simp [List.findSome?_cons, hpa]
      | false =>
          rw [List.find?_cons_of_neg _ (by simp [hpa])]
          simp [List.findSome?_cons, hpa, ih]

/-- The /24 base is the first non-loopback IPv4 interface's first three
octets, across the flattened interface groups. -/
theorem deriveBase_eq (groups : List (List Iface)) :
    deriveBase groups =
      (groups.flatten.find? usableIface).map fun a => firstThree a.address := by
  rw [deriveBase, find?_map_eq_findSome?, findSome?_flatten]

/-- C4: subnet-scan discovery derives its /24 base from the first
non-loopback IPv4 interface; it probes exactly the 254 host octets 1-254
in sequential batches of at most 50 probes; it returns the first matching
address, issuing no batch beyond the one containing the match; and it
reports not-found exactly when every probe fails. -/
theorem subnet_scan_policy (groups : List (List Iface)) (oracle : Nat → Bool) :
    (deriveBase groups =
      (groups.flatten.find? usableIface).map fun a => firstThree a.address) ∧
    (∀ bt ∈ (scanFrom oracle 1).2, bt.length ≤ SUBNET_BATCH_SIZE) ∧
    ((scanFrom oracle 1).1 = none ↔ ∀ i, 1 ≤ i → i ≤ 254 → oracle i = false) ∧
    ((scanFrom oracle 1).1 = none →
      (scanFrom oracle 1).2.flatten = List.range' 1 254) ∧
    (∀ i, (scanFrom oracle 1).1 = some i →
      oracle i = true ∧ 1 ≤ i ∧ i ≤ 254 ∧
      (∀ j, 1 ≤ j → j < i → oracle j = false) ∧
      ∃ pre lastb, (scanFrom oracle 1).2 = pre ++ [lastb] ∧ i ∈ lastb ∧
        ∀ bt ∈ pre, ∀ j ∈ bt, oracle j = false) ∧
    (∀ base, deriveBase groups = some base →
      (∀ i, (scanFrom oracle 1).1 = some i →
        discoverBySubnetScan groups oracle = .ok (base ++ "." ++ toString i)) ∧
      ((scanFrom oracle 1).1 = none →
        discoverBySubnetScan groups oracle = .error "not found")) ∧
    (deriveBase groups = none →
      discoverBySubnetScan groups oracle = .error "no network") := by
  refine ⟨deriveBase_eq groups, scanFrom_batch_len oracle 255 1 (by omega),
    ?_, ?_, ?_, ?_, ?_⟩
  · have hiff := scanFrom_none_iff oracle 255 1 (by omega)
    constructor
    · intro hn i h1 h2
      exact hiff.mp hn i h1 (by omega)
    · intro hall
      exact hiff.mpr fun i h1 h2 => hall i h1 (by omega)
  · intro hn
    simpa using scanFrom_none_flatten oracle 255 1 (by omega) hn
  · intro i hi
    obtain ⟨a1, a2, a3, a4, a5⟩ := scanFrom_some_spec oracle 255 1 i (by omega) hi
    exact ⟨a1, a2, by omega, a4, a5⟩
  · intro base hbase
    constructor
    · intro i hi
      simp [discoverBySubnetScan, hbase, hi]
    · intro hn
      simp [discoverBySubnetScan, hbase, hn]
  · intro hn
    simp [discoverBySubnetScan, hn]

/-- Interface groups of the witness scenario: an IPv6 entry, the
loopback, and a LAN IPv4 interface. -/
def scenarioIfaces : List (List Iface) :=
  [[⟨"IPv6", false, "fe80::1"⟩],
   [⟨"IPv4", true, "127.0.0.1"⟩, ⟨"IPv4", false, "192.168.1.10"⟩]]

/-- Probe oracle of the witness scenario: only host 77 answers with the
target identifier. -/
def scenarioOracle : Nat → Bool := fun i => i == 77

/-- Witness for C4: Scenario B -- the scan on 192.168.1.0/24 misses in
batch one, finds host 77 in batch two, and returns 192.168.1.77. -/
theorem subnet_scan_policy_witness :
    discoverBySubnetScan scenarioIfaces scenarioOracle = .ok "192.168.1.77" := by
  have h1 : (List.range' 1 (min (1 + SUBNET_BATCH_SIZE) 255 - 1)).find? scenarioOracle
      = none := by decide
  have h2 : (List.range' 51 (min (51 + SUBNET_BATCH_SIZE) 255 - 51)).find? scenarioOracle
      = some 77 := by decide
  have hsome : (scanFrom scenarioOracle 1).1 = some 77 := by
    rw [scanFrom_eq_next scenarioOracle 1 (by omega) h1]
    dsimp only
    rw [show (1 : Nat) + SUBNET_BATCH_SIZE = 51 from by decide]
    rw [scanFrom_eq_found scenarioOracle 51 77 (by omega) h2]
  have hbase : deriveBase scenarioIfaces = some "192.168.1" := by decide
  exact ((subnet_scan_policy scenarioIfaces scenarioOracle).2.2.2.2.2.1
    "192.168.1" hbase).1 77 hsome

end Wiz
